import Mathlib

/-!
Shallow embedding of the AndersenEV schedule app's core:
the `DatabaseService` persistence layer (the variant exposing `initialize`,
which is the one imported by `AuthContext` and `ScheduleService`), the
`ScheduleForm.handleSubmit` validation pipeline, and `AuthContext.register`.

Modelling conventions:
- SQLite rows become Lean structures; NULL-able columns become `Option`.
- The autoincrement id counters and the wall clock (`new Date().toISOString()`)
  become `Nat` counters in `DBState`; each write stamps the current clock and
  advances it, matching "fresh id and creation timestamp".
- JavaScript `x || null` coerces falsy values (undefined, empty string, 0) to
  null; `strOrNull` / `intOrNull` reproduce this.
- JavaScript `parseInt` (no radix argument) is modelled by `jsParseInt`:
  leading whitespace and sign, optional 0x prefix, longest digit prefix,
  `none` for NaN.
- A fallible operation returns `Except DBError _`; operations whose SQL
  success callback always resolves (UPDATE / DELETE, which succeed even when
  zero rows match) return `.ok` unconditionally.
-/

namespace AndersenEV

/-- The `type` column: `'time' | 'charge' | 'mileage'`. -/
inductive ScheduleType where
  | time
  | charge
  | mileage
deriving DecidableEq

/-- A row of the `users` table. -/
structure UserRow where
  id : Nat
  username : String
  email : String
  password : String
  createdAt : Nat
deriving DecidableEq

/-- A row of the `schedules` table (nullable columns are `Option`). -/
structure ScheduleRow where
  id : Nat
  userId : Nat
  type : ScheduleType
  name : String
  days : String
  startTime : Option String
  endTime : Option String
  readyByTime : Option String
  desiredChargeLevel : Option Int
  desiredMileage : Option Int
  isActive : Bool
  createdAt : Nat
deriving DecidableEq

/-- The persistent store: both tables plus the autoincrement counters and the
clock used to stamp `createdAt`. -/
structure DBState where
  users : List UserRow
  schedules : List ScheduleRow
  nextUserId : Nat
  nextScheduleId : Nat
  clock : Nat
deriving DecidableEq

/-- Error taxonomy of the store layer. -/
inductive DBError where
  | QuotaExceeded
  | ConstraintViolation
  | NotFound
deriving DecidableEq

/-- JavaScript `s || null` for an optional string: `undefined` and the empty
string (both falsy) become null. -/
def strOrNull : Option String → Option String
  | none => none
  | some s => if s = "" then none else some s

/-- JavaScript `n || null` for an optional number: `undefined` and `0` (both
falsy) become null. -/
def intOrNull : Option Int → Option Int
  | none => none
  | some n => if n = 0 then none else some n

/-- The `SELECT COUNT(*) FROM schedules WHERE userId = ?` query used by the
quota check (and exposed as `getScheduleCount`). -/
def getScheduleCount (st : DBState) (userId : Nat) : Nat :=
  (st.schedules.filter (fun r => r.userId = userId)).length

/-- The argument of `createSchedule`: `Omit<Schedule, 'id' | 'createdAt'>`. -/
structure CreateData where
  userId : Nat
  type : ScheduleType
  name : String
  days : String
  startTime : Option String
  endTime : Option String
  readyByTime : Option String
  desiredChargeLevel : Option Int
  desiredMileage : Option Int
  isActive : Bool
deriving DecidableEq

/-- `DatabaseService.createSchedule`: rejects when the owner already has 10
schedules, otherwise INSERTs a row (falsy optional fields coerced to null by
`||`), assigning the next id and the current timestamp. -/
def createSchedule (st : DBState) (d : CreateData) :
    Except DBError (ScheduleRow × DBState) :=
  if 10 ≤ getScheduleCount st d.userId then
    .error .QuotaExceeded
  else
    let row : ScheduleRow :=
      { id := st.nextScheduleId
        userId := d.userId
        type := d.type
        name := d.name
        days := d.days
        startTime := strOrNull d.startTime
        endTime := strOrNull d.endTime
        readyByTime := strOrNull d.readyByTime
        desiredChargeLevel := intOrNull d.desiredChargeLevel
        desiredMileage := intOrNull d.desiredMileage
        isActive := d.isActive
        createdAt := st.clock }
    .ok (row,
      { st with
        schedules := st.schedules ++ [row]
        nextScheduleId := st.nextScheduleId + 1
        clock := st.clock + 1 })

/-- The `ORDER BY createdAt DESC` comparison. -/
def createdDesc (a b : ScheduleRow) : Prop :=
  b.createdAt ≤ a.createdAt

instance : DecidableRel createdDesc :=
  fun a b => inferInstanceAs (Decidable (b.createdAt ≤ a.createdAt))

instance : IsTotal ScheduleRow createdDesc :=
  ⟨fun a b => le_total b.createdAt a.createdAt⟩

instance : IsTrans ScheduleRow createdDesc :=
  ⟨fun _ _ _ h1 h2 => le_trans h2 h1⟩

/-- `DatabaseService.getSchedulesByUserId`:
`SELECT * FROM schedules WHERE userId = ? ORDER BY createdAt DESC`. -/
def getSchedulesByUserId (st : DBState) (userId : Nat) : List ScheduleRow :=
  List.insertionSort createdDesc (st.schedules.filter (fun r => r.userId = userId))

/-- The argument of `updateSchedule`: `Partial<Schedule>`. A `some` field is
present in the payload; `none` is omitted (or explicitly `undefined`, which
the source filters out with `value !== undefined`). -/
structure UpdatePayload where
  id : Option Nat := none
  userId : Option Nat := none
  type : Option ScheduleType := none
  name : Option String := none
  days : Option String := none
  startTime : Option String := none
  endTime : Option String := none
  readyByTime : Option String := none
  desiredChargeLevel : Option Int := none
  desiredMileage : Option Int := none
  isActive : Option Bool := none
  createdAt : Option Nat := none
deriving DecidableEq

/-- Number of `key = ?` entries collected by the `Object.entries` loop:
every present field except `id`. -/
def UpdatePayload.fieldCount (p : UpdatePayload) : Nat :=
  (if p.userId.isSome then 1 else 0) +
  (if p.type.isSome then 1 else 0) +
  (if p.name.isSome then 1 else 0) +
  (if p.days.isSome then 1 else 0) +
  (if p.startTime.isSome then 1 else 0) +
  (if p.endTime.isSome then 1 else 0) +
  (if p.readyByTime.isSome then 1 else 0) +
  (if p.desiredChargeLevel.isSome then 1 else 0) +
  (if p.desiredMileage.isSome then 1 else 0) +
  (if p.isActive.isSome then 1 else 0) +
  (if p.createdAt.isSome then 1 else 0)

/-- Overwrite a nullable column when the payload carries the field. -/
def setOpt {α : Type} : Option α → Option α → Option α
  | some v, _ => some v
  | none, old => old

/-- Effect of `UPDATE schedules SET f1 = ?, ... WHERE id = ?` on the matching
row: each present payload field overwrites the column; `id` is excluded. -/
def applyUpdate (p : UpdatePayload) (r : ScheduleRow) : ScheduleRow :=
  { r with
    userId := p.userId.getD r.userId
    type := p.type.getD r.type
    name := p.name.getD r.name
    days := p.days.getD r.days
    startTime := setOpt p.startTime r.startTime
    endTime := setOpt p.endTime r.endTime
    readyByTime := setOpt p.readyByTime r.readyByTime
    desiredChargeLevel := setOpt p.desiredChargeLevel r.desiredChargeLevel
    desiredMileage := setOpt p.desiredMileage r.desiredMileage
    isActive := p.isActive.getD r.isActive
    createdAt := p.createdAt.getD r.createdAt }

/-- `DatabaseService.updateSchedule`: resolves immediately when the update set
is empty after exclusions; otherwise runs the UPDATE, whose success callback
always resolves — also when no row matches `id` (zero rows affected). -/
def updateSchedule (st : DBState) (id : Nat) (p : UpdatePayload) :
    Except DBError DBState :=
  if p.fieldCount = 0 then
    .ok st
  else
    .ok { st with
          schedules := st.schedules.map
            (fun r => if r.id = id then applyUpdate p r else r) }

/-- `DatabaseService.deleteSchedule`: `DELETE FROM schedules WHERE id = ?`;
the success callback always resolves, also when no row matches. -/
def deleteSchedule (st : DBState) (id : Nat) : DBState :=
  { st with schedules := st.schedules.filter (fun r => ¬ r.id = id) }

/-- `DatabaseService.getUserByUsername`: first row matching the username
(unique, so at most one), or null. -/
def getUserByUsername (st : DBState) (username : String) : Option UserRow :=
  st.users.find? (fun u => u.username = username)

/-- `DatabaseService.createUser`: INSERT rejected by the UNIQUE constraints
when the username or the email already exists; otherwise persists a row with
the next id and the current timestamp. -/
def createUser (st : DBState) (username email password : String) :
    Except DBError (UserRow × DBState) :=
  if st.users.any (fun u => u.username = username ∨ u.email = email) then
    .error .ConstraintViolation
  else
    let u : UserRow :=
      { id := st.nextUserId
        username := username
        email := email
        password := password
        createdAt := st.clock }
    .ok (u,
      { st with
        users := st.users ++ [u]
        nextUserId := st.nextUserId + 1
        clock := st.clock + 1 })

/-- Outcome of `AuthContext.register`: the boolean it returns, the resulting
store, and whether `DatabaseService.createUser` was invoked. -/
structure RegisterResult where
  success : Bool
  state : DBState
  createUserInvoked : Bool
deriving DecidableEq

/-- `AuthContext.register`: pre-checks only `getUserByUsername`; when that
finds a user it returns false without calling `createUser`; otherwise it calls
`createUser` and the catch block turns a store rejection into false. -/
def register (st : DBState) (username email password : String) : RegisterResult :=
  match getUserByUsername st username with
  | some _ => ⟨false, st, false⟩
  | none =>
    match createUser st username email password with
    | .error _ => ⟨false, st, true⟩
    | .ok (_, st') => ⟨true, st', true⟩

/-! ### Form validation (`ScheduleForm.handleSubmit`) -/

deriving instance DecidableEq for Except

/-- JavaScript whitespace test (the ASCII whitespace characters; the app's
inputs contain no exotic Unicode whitespace). -/
def isJsWhitespace (c : Char) : Bool :=
  c = ' ' || c = '\t' || c = '\n' || c = '\r' || c = '\x0b' || c = '\x0c'

/-- JavaScript `s.trim()`: strip leading and trailing whitespace. -/
def jsTrim (s : String) : String :=
  ⟨((s.toList.dropWhile isJsWhitespace).reverse.dropWhile isJsWhitespace).reverse⟩

/-- Value of a hexadecimal digit character. -/
def hexDigitVal (c : Char) : Nat :=
  if c.isDigit then c.toNat - 48
  else if 'a' ≤ c ∧ c ≤ 'f' then c.toNat - 97 + 10
  else c.toNat - 65 + 10

/-- Whether `c` is a digit of the given radix (10 or 16). -/
def isRadixDigit (radix : Nat) (c : Char) : Bool :=
  if radix = 16 then c.isDigit || ('a' ≤ c && c ≤ 'f') || ('A' ≤ c && c ≤ 'F')
  else c.isDigit

/-- JavaScript `parseInt(s)` with no radix argument: skip leading whitespace,
read an optional sign, switch to base 16 after `0x`/`0X`, take the longest
digit prefix; `none` models `NaN` when no digit is read. -/
def jsParseInt (s : String) : Option Int :=
  let cs := s.toList.dropWhile isJsWhitespace
  let signed : Int × List Char :=
    match cs with
    | '-' :: rest => (-1, rest)
    | '+' :: rest => (1, rest)
    | _ => (1, cs)
  let based : Nat × List Char :=
    match signed.2 with
    | '0' :: 'x' :: rest => (16, rest)
    | '0' :: 'X' :: rest => (16, rest)
    | _ => (10, signed.2)
  let ds := based.2.takeWhile (isRadixDigit based.1)
  if ds.isEmpty then none
  else some (signed.1 * (ds.foldl (fun acc c => acc * based.1 + hexDigitVal c) 0 : Nat))

/-- Field named in a validation failure. -/
inductive FieldName where
  | name
  | days
  | startEndTime
  | readyByTime
  | desiredChargeLevel
  | desiredMileage
deriving DecidableEq

/-- Validation failure: one of the `Alert.alert('Error', ...)` exits of
`handleSubmit`. -/
inductive ValidationError where
  | missingField (f : FieldName)
  | outOfRange (f : FieldName)
deriving DecidableEq

/-- The `formData` state of `ScheduleForm` at submission time (text inputs are
strings; `days` is the toggled selection in toggle order). -/
structure FormData where
  name : String
  type : ScheduleType
  days : List String
  startTime : String
  endTime : String
  readyByTime : String
  desiredChargeLevel : String
  desiredMileage : String
deriving DecidableEq

/-- `JSON.stringify` of the days array (day names contain no characters that
JSON escapes). -/
def daysJson (days : List String) : String :=
  "[" ++ String.intercalate "," (days.map (fun d => "\"" ++ d ++ "\"")) ++ "]"

/-- The `Partial<Schedule>` payload `handleSubmit` hands to `onSubmit`:
a `none` field was set to `undefined`. -/
structure FormPayload where
  name : String
  type : ScheduleType
  days : String
  startTime : Option String
  endTime : Option String
  readyByTime : Option String
  desiredChargeLevel : Option Int
  desiredMileage : Option Int
  isActive : Bool
deriving DecidableEq

/-- The `scheduleData` object literal built on the success path of
`handleSubmit`. -/
def buildPayload (f : FormData) : FormPayload :=
  { name := jsTrim f.name
    type := f.type
    days := daysJson f.days
    startTime := if f.type = .time then some f.startTime else none
    endTime := if f.type = .time then some f.endTime else none
    readyByTime := if f.type ≠ .time then some f.readyByTime else none
    desiredChargeLevel := if f.type = .charge then jsParseInt f.desiredChargeLevel else none
    desiredMileage := if f.type = .mileage then jsParseInt f.desiredMileage else none
    isActive := true }

/-- Step 5 of `handleSubmit`: the mileage range check (`isNaN(mileage) ||
mileage < 0 || mileage > 250`), then the payload build. -/
def checkMileage (f : FormData) : Except ValidationError FormPayload :=
  if f.type = .mileage then
    match jsParseInt f.desiredMileage with
    | none => .error (.outOfRange .desiredMileage)
    | some n =>
      if n < 0 ∨ 250 < n then .error (.outOfRange .desiredMileage)
      else .ok (buildPayload f)
  else .ok (buildPayload f)

/-- Step 4 of `handleSubmit`: the charge-level range check (`isNaN(chargeLevel)
|| chargeLevel < 0 || chargeLevel > 100`), then step 5. -/
def checkCharge (f : FormData) : Except ValidationError FormPayload :=
  if f.type = .charge then
    match jsParseInt f.desiredChargeLevel with
    | none => .error (.outOfRange .desiredChargeLevel)
    | some n =>
      if n < 0 ∨ 100 < n then .error (.outOfRange .desiredChargeLevel)
      else checkMileage f
  else checkMileage f

/-- `ScheduleForm.handleSubmit`: the guard clauses in source order (trimmed
name, non-empty days, the type-specific time fields, then the numeric range
checks), producing the submitted payload on success. -/
def handleSubmit (f : FormData) : Except ValidationError FormPayload :=
  if jsTrim f.name = "" then .error (.missingField .name)
  else if f.days.length = 0 then .error (.missingField .days)
  else if f.type = .time then
    if f.startTime = "" ∨ f.endTime = "" then .error (.missingField .startEndTime)
    else checkCharge f
  else
    if f.readyByTime = "" then .error (.missingField .readyByTime)
    else checkCharge f

/-- `ScheduleScreen.handleFormSubmit` on the create path: spread the form
payload and add the logged-in user's id. -/
def toCreateData (p : FormPayload) (userId : Nat) : CreateData :=
  { userId := userId
    type := p.type
    name := p.name
    days := p.days
    startTime := p.startTime
    endTime := p.endTime
    readyByTime := p.readyByTime
    desiredChargeLevel := p.desiredChargeLevel
    desiredMileage := p.desiredMileage
    isActive := p.isActive }

/-- Well-formed store: every schedule id is below the autoincrement counter
and every timestamp is below the clock (so the next insert is fresh). -/
def DBState.WF (st : DBState) : Prop :=
  ∀ r ∈ st.schedules, r.id < st.nextScheduleId ∧ r.createdAt < st.clock

instance (st : DBState) : Decidable st.WF :=
  inferInstanceAs (Decidable (∀ r ∈ st.schedules, _ ∧ _))

/-! ### Concrete fixtures used by witnesses and counterexamples -/

/-- A stored time-based schedule, parameterised by id (`createdAt` grows with
the id, as successive inserts stamp successive clock values). -/
def sampleRow (i : Nat) : ScheduleRow :=
  { id := i
    userId := 1
    type := .time
    name := "Morning Charge"
    days := "[\"Monday\"]"
    startTime := some "06:00"
    endTime := some "08:00"
    readyByTime := none
    desiredChargeLevel := none
    desiredMileage := none
    isActive := true
    createdAt := i }

/-- A store in which user 1 already owns ten schedules. -/
def tenState : DBState :=
  { users := []
    schedules := (List.range 10).map sampleRow
    nextUserId := 1
    nextScheduleId := 10
    clock := 10 }

/-- A store holding a single schedule (id 0, owned by user 1). -/
def oneState : DBState :=
  { users := []
    schedules := [sampleRow 0]
    nextUserId := 1
    nextScheduleId := 1
    clock := 1 }

/-- The empty store. -/
def emptyDB : DBState :=
  { users := [], schedules := [], nextUserId := 1, nextScheduleId := 1, clock := 0 }

/-- The seeded demo user. -/
def demoUser : UserRow :=
  { id := 1
    username := "demo"
    email := "demo@andersenev.com"
    password := "demo123"
    createdAt := 0 }

/-- A store holding only the demo user. -/
def demoState : DBState :=
  { users := [demoUser], schedules := [], nextUserId := 2, nextScheduleId := 1, clock := 1 }

/-- An update payload carrying only a new name. -/
def renamePayload : UpdatePayload := { name := some "Renamed" }

/-! ### Shared helper lemmas -/

/-- An empty update set means every payload field except `id` is absent. -/
theorem fieldCount_eq_zero {p : UpdatePayload} (h : p.fieldCount = 0) :
    p.userId = none ∧ p.type = none ∧ p.name = none ∧ p.days = none ∧
    p.startTime = none ∧ p.endTime = none ∧ p.readyByTime = none ∧
    p.desiredChargeLevel = none ∧ p.desiredMileage = none ∧ p.isActive = none ∧
    p.createdAt = none := by
  unfold UpdatePayload.fieldCount at h
  refine ⟨?_, ?_, ?_, ?_, ?_, ?_, ?_, ?_, ?_, ?_, ?_⟩ <;>
    { rw [← Option.not_isSome_iff_eq_none]
      intro hs
      simp only [hs, if_true] at h
      omega }

/-- An empty update set leaves every row unchanged. -/
theorem applyUpdate_of_fieldCount_zero {p : UpdatePayload} (h : p.fieldCount = 0)
    (r : ScheduleRow) : applyUpdate p r = r := by
  obtain ⟨h1, h2, h3, h4, h5, h6, h7, h8, h9, h10, h11⟩ := fieldCount_eq_zero h
  simp [applyUpdate, setOpt, h1, h2, h3, h4, h5, h6, h7, h8, h9, h10, h11]

/-! ### Claim theorems -/

/-- C8: `deleteSchedule` is idempotent — deleting an id that matches no stored
row leaves the store unchanged (and, in this embedding of the always-resolving
DELETE, succeeds), and deleting the same id twice equals deleting it once. -/
theorem deleteSchedule_idempotent (st : DBState) (id : Nat) :
    ((∀ r ∈ st.schedules, r.id ≠ id) → deleteSchedule st id = st) ∧
    deleteSchedule (deleteSchedule st id) id = deleteSchedule st id := by
  constructor
  · intro h
    unfold deleteSchedule
    rw [List.filter_eq_self.mpr (fun a ha => by simpa using h a ha)]
  · simp [deleteSchedule, List.filter_filter]

/-- Witness for C8 at a concrete store: id 5 matches no row of `oneState`. -/
theorem deleteSchedule_idempotent_witness :
    deleteSchedule oneState 5 = oneState ∧
    deleteSchedule (deleteSchedule oneState 5) 5 = deleteSchedule oneState 5 :=
  ⟨(deleteSchedule_idempotent oneState 5).1 (by decide),
   (deleteSchedule_idempotent oneState 5).2⟩

/-- C3 counterexample: on a store with no row of id 5, a non-empty update
resolves successfully (the UPDATE matches zero rows) and leaves the store
unchanged — it does not fail with `NotFound` as the claim states. -/
theorem updateSchedule_missing_id_counterexample :
    updateSchedule oneState 5 renamePayload = .ok oneState ∧
    updateSchedule oneState 5 renamePayload ≠ .error .NotFound ∧
    renamePayload.fieldCount ≠ 0 := by
  refine ⟨by decide, by decide, by decide⟩

/-- C3 amended: `updateSchedule` on an id that matches no stored row succeeds
as a silent no-op, leaving the store unchanged. -/
theorem updateSchedule_missing_id_noop (st : DBState) (id : Nat)
    (p : UpdatePayload) (h : ∀ r ∈ st.schedules, r.id ≠ id) :
    updateSchedule st id p = .ok st := by
  unfold updateSchedule
  by_cases hc : p.fieldCount = 0
  · simp [hc]
  · have hmap : st.schedules.map (fun r => if r.id = id then applyUpdate p r else r)
        = st.schedules := by
      rw [List.map_congr_left (fun r hr => if_neg (h r hr))]
      exact List.map_id _
    simp [hc, hmap]

/-- Witness for the amended C3 at a concrete store and payload. -/
theorem updateSchedule_missing_id_noop_witness :
    updateSchedule oneState 7 renamePayload = .ok oneState :=
  updateSchedule_missing_id_noop oneState 7 renamePayload (by decide)

/-- C7: `updateSchedule` always resolves; the target row receives exactly the
present payload fields (id excluded), rows with other ids are untouched, the
user table is untouched, every payload field that is absent keeps the row's
previous value, and an update set that is empty after exclusions is a
successful no-op. -/
theorem updateSchedule_frame (st : DBState) (id : Nat) (p : UpdatePayload) :
    ∃ st', updateSchedule st id p = .ok st' ∧
      (p.fieldCount = 0 → st' = st) ∧
      st'.schedules = st.schedules.map
        (fun r => if r.id = id then applyUpdate p r else r) ∧
      st'.users = st.users ∧
      (∀ r, (applyUpdate p r).id = r.id) ∧
      (p.userId = none → ∀ r, (applyUpdate p r).userId = r.userId) ∧
      (p.type = none → ∀ r, (applyUpdate p r).type = r.type) ∧
      (p.name = none → ∀ r, (applyUpdate p r).name = r.name) ∧
      (p.days = none → ∀ r, (applyUpdate p r).days = r.days) ∧
      (p.startTime = none → ∀ r, (applyUpdate p r).startTime = r.startTime) ∧
      (p.endTime = none → ∀ r, (applyUpdate p r).endTime = r.endTime) ∧
      (p.readyByTime = none → ∀ r, (applyUpdate p r).readyByTime = r.readyByTime) ∧
      (p.desiredChargeLevel = none →
        ∀ r, (applyUpdate p r).desiredChargeLevel = r.desiredChargeLevel) ∧
      (p.desiredMileage = none →
        ∀ r, (applyUpdate p r).desiredMileage = r.desiredMileage) ∧
      (p.isActive = none → ∀ r, (applyUpdate p r).isActive = r.isActive) ∧
      (p.createdAt = none → ∀ r, (applyUpdate p r).createdAt = r.createdAt) := by
  have hframe :
      (∀ r, (applyUpdate p r).id = r.id) ∧
      (p.userId = none → ∀ r, (applyUpdate p r).userId = r.userId) ∧
      (p.type = none → ∀ r, (applyUpdate p r).type = r.type) ∧
      (p.name = none → ∀ r, (applyUpdate p r).name = r.name) ∧
      (p.days = none → ∀ r, (applyUpdate p r).days = r.days) ∧
      (p.startTime = none → ∀ r, (applyUpdate p r).startTime = r.startTime) ∧
      (p.endTime = none → ∀ r, (applyUpdate p r).endTime = r.endTime) ∧
      (p.readyByTime = none → ∀ r, (applyUpdate p r).readyByTime = r.readyByTime) ∧
      (p.desiredChargeLevel = none →
        ∀ r, (applyUpdate p r).desiredChargeLevel = r.desiredChargeLevel) ∧
      (p.desiredMileage = none →
        ∀ r, (applyUpdate p r).desiredMileage = r.desiredMileage) ∧
      (p.isActive = none → ∀ r, (applyUpdate p r).isActive = r.isActive) ∧
      (p.createdAt = none → ∀ r, (applyUpdate p r).createdAt = r.createdAt) := by
    refine ⟨fun r => rfl, ?_, ?_, ?_, ?_, ?_, ?_, ?_, ?_, ?_, ?_, ?_⟩ <;>
      { intro h r; simp [applyUpdate, setOpt, h] }
  have happly : p.fieldCount = 0 →
      st.schedules.map (fun r => if r.id = id then applyUpdate p r else r)
        = st.schedules := by
    intro hc
    calc st.schedules.map (fun r => if r.id = id then applyUpdate p r else r)
        = st.schedules.map (fun r => r) :=
          List.map_congr_left
            (fun r _ => by rw [applyUpdate_of_fieldCount_zero hc r, ite_self])
      _ = st.schedules := List.map_id _
  refine ⟨{ st with schedules := st.schedules.map (fun r => if r.id = id then applyUpdate p r else r) },
    ?_, ?_, rfl, rfl, hframe.1,
    hframe.2.1, hframe.2.2.1, hframe.2.2.2.1, hframe.2.2.2.2.1,
    hframe.2.2.2.2.2.1, hframe.2.2.2.2.2.2.1, hframe.2.2.2.2.2.2.2.1,
    hframe.2.2.2.2.2.2.2.2.1, hframe.2.2.2.2.2.2.2.2.2.1,
    hframe.2.2.2.2.2.2.2.2.2.2.1, hframe.2.2.2.2.2.2.2.2.2.2.2⟩
  · unfold updateSchedule
    by_cases hc : p.fieldCount = 0
    · rw [if_pos hc, happly hc]
    · rw [if_neg hc]
  · intro hc
    rw [happly hc]

/-- Witness for C7 at a concrete store and payload: renaming schedule 0. -/
theorem updateSchedule_frame_witness :
    ∃ st', updateSchedule oneState 0 renamePayload = .ok st' ∧
      st'.schedules = oneState.schedules.map
        (fun r => if r.id = 0 then applyUpdate renamePayload r else r) ∧
      st'.users = oneState.users := by
  obtain ⟨st', h1, -, h3, h4, -⟩ := updateSchedule_frame oneState 0 renamePayload
  exact ⟨st', h1, h3, h4⟩

/-- C2: when the owning user already has 10 schedules, `createSchedule` fails
with `QuotaExceeded` (returning no new state — the store keeps its rows);
below the quota it appends exactly one row carrying the fresh autoincrement
id and the current timestamp, both unused by every stored row. -/
theorem createSchedule_quota (st : DBState) (d : CreateData) (hwf : st.WF) :
    (10 ≤ getScheduleCount st d.userId →
      createSchedule st d = .error .QuotaExceeded) ∧
    (getScheduleCount st d.userId < 10 →
      ∃ row st', createSchedule st d = .ok (row, st') ∧
        st'.schedules = st.schedules ++ [row] ∧
        st'.users = st.users ∧
        row.id = st.nextScheduleId ∧
        row.createdAt = st.clock ∧
        (∀ r ∈ st.schedules, r.id ≠ row.id ∧ r.createdAt ≠ row.createdAt) ∧
        st'.WF) := by
  constructor
  · intro h
    unfold createSchedule
    rw [if_pos h]
  · intro h
    unfold createSchedule
    rw [if_neg (not_le.mpr h)]
    refine ⟨_, _, rfl, rfl, rfl, rfl, rfl, ?_, ?_⟩
    · intro r hr
      obtain ⟨hid, hct⟩ := hwf r hr
      exact ⟨Nat.ne_of_lt hid, Nat.ne_of_lt hct⟩
    · intro r hr
      rw [List.mem_append] at hr
      rcases hr with hr | hr
      · obtain ⟨hid, hct⟩ := hwf r hr
        exact ⟨Nat.lt_succ_of_lt hid, Nat.lt_succ_of_lt hct⟩
      · rw [List.mem_singleton] at hr
        subst hr
        exact ⟨Nat.lt_succ_self _, Nat.lt_succ_self _⟩

/-- The payload of the spec's quota scenario (type `charge`, level 80). -/
def quotaCreateData : CreateData :=
  { userId := 1
    type := .charge
    name := "Night"
    days := "[\"Mon\",\"Wed\"]"
    startTime := none
    endTime := none
    readyByTime := some "07:00"
    desiredChargeLevel := some 80
    desiredMileage := none
    isActive := true }

/-- A store in which user 1 owns nine schedules. -/
def nineState : DBState :=
  { users := []
    schedules := (List.range 9).map sampleRow
    nextUserId := 1
    nextScheduleId := 9
    clock := 9 }

/-- Witness for C2: creation is rejected at ten schedules and succeeds at
nine. -/
theorem createSchedule_quota_witness :
    createSchedule tenState quotaCreateData = .error .QuotaExceeded ∧
    ∃ row st', createSchedule nineState quotaCreateData = .ok (row, st') ∧
      st'.schedules = nineState.schedules ++ [row] := by
  constructor
  · exact (createSchedule_quota tenState quotaCreateData (by decide)).1 (by decide)
  · obtain ⟨row, st', h1, h2, -⟩ :=
      (createSchedule_quota nineState quotaCreateData (by decide)).2 (by decide)
    exact ⟨row, st', h1, h2⟩

/-- C9: `getSchedulesByUserId` returns a permutation of exactly the stored
rows owned by the user (rows of other users excluded), sorted with the most
recent creation timestamp first. -/
theorem getSchedulesByUserId_spec (st : DBState) (userId : Nat) :
    List.Perm (getSchedulesByUserId st userId)
      (st.schedules.filter (fun r => r.userId = userId)) ∧
    List.Sorted createdDesc (getSchedulesByUserId st userId) ∧
    ∀ r, r ∈ getSchedulesByUserId st userId ↔
      r ∈ st.schedules ∧ r.userId = userId := by
  refine ⟨List.perm_insertionSort _ _, List.sorted_insertionSort _ _, fun r => ?_⟩
  unfold getSchedulesByUserId
  rw [List.Perm.mem_iff (List.perm_insertionSort _ _), List.mem_filter]
  simp

/-- Witness for C9 at a concrete store. -/
theorem getSchedulesByUserId_spec_witness :
    List.Sorted createdDesc (getSchedulesByUserId tenState 1) ∧
    ∀ r, r ∈ getSchedulesByUserId tenState 1 ↔
      r ∈ tenState.schedules ∧ r.userId = 1 :=
  ⟨(getSchedulesByUserId_spec tenState 1).2.1,
   (getSchedulesByUserId_spec tenState 1).2.2⟩

/-- C10: `register` pre-checks only the username — when `getUserByUsername`
finds one it returns false without invoking `createUser` and the store is
unchanged; with a fresh username but a duplicate email it does invoke
`createUser`, whose unique constraint rejects the insert, so `register`
returns false and no user row is created. -/
theorem register_duplicate (st : DBState) (username email password : String) :
    (∀ u, getUserByUsername st username = some u →
      register st username email password = ⟨false, st, false⟩) ∧
    (getUserByUsername st username = none →
      (∃ x ∈ st.users, x.email = email) →
      register st username email password = ⟨false, st, true⟩) := by
  constructor
  · intro u hu
    unfold register
    rw [hu]
  · intro hn hx
    have hany : (st.users.any fun u => u.username = username ∨ u.email = email) = true := by
      obtain ⟨x, hx1, hx2⟩ := hx
      exact List.any_eq_true.mpr ⟨x, hx1, by simp [hx2]⟩
    have hcu : createUser st username email password = .error .ConstraintViolation := by
      unfold createUser
      rw [if_pos hany]
    unfold register
    rw [hn, hcu]

/-- Witness for C10: registering the existing username `demo`, and a fresh
username with the already-used demo email. -/
theorem register_duplicate_witness :
    register demoState "demo" "new@example.com" "pw" = ⟨false, demoState, false⟩ ∧
    register demoState "fresh" "demo@andersenev.com" "pw" = ⟨false, demoState, true⟩ := by
  constructor
  · exact (register_duplicate demoState "demo" "new@example.com" "pw").1 demoUser (by decide)
  · exact (register_duplicate demoState "fresh" "demo@andersenev.com" "pw").2
      (by decide) ⟨demoUser, by decide, by decide⟩

/-! ### Validation fixtures and helper lemmas -/

/-- A charge-type form with valid basics, parameterised by the charge-level
text field. -/
def chargeForm (level : String) : FormData :=
  { name := "Night"
    type := .charge
    days := ["Monday", "Wednesday"]
    startTime := ""
    endTime := ""
    readyByTime := "07:00"
    desiredChargeLevel := level
    desiredMileage := "" }

/-- A mileage-type form with valid basics, parameterised by the mileage
text field. -/
def mileageForm (m : String) : FormData :=
  { name := "Trip"
    type := .mileage
    days := ["Friday"]
    startTime := ""
    endTime := ""
    readyByTime := "08:00"
    desiredChargeLevel := ""
    desiredMileage := m }

/-- Once the name, days and ready-by guards pass, a non-time submission
reaches the numeric range checks. -/
theorem handleSubmit_to_checkCharge (f : FormData)
    (h1 : jsTrim f.name ≠ "") (h2 : f.days.length ≠ 0) (h3 : f.readyByTime ≠ "")
    (ht : f.type ≠ .time) : handleSubmit f = checkCharge f := by
  simp [handleSubmit, h1, h2, h3, ht]

/-- Outcome of the range-check stage for a charge submission, by parse
result. -/
theorem checkCharge_charge (f : FormData) (ht : f.type = .charge) :
    (jsParseInt f.desiredChargeLevel = none →
      checkCharge f = .error (.outOfRange .desiredChargeLevel)) ∧
    (∀ n, jsParseInt f.desiredChargeLevel = some n →
      ((n < 0 ∨ 100 < n) →
        checkCharge f = .error (.outOfRange .desiredChargeLevel)) ∧
      (0 ≤ n → n ≤ 100 → checkCharge f = .ok (buildPayload f))) := by
  have hne : f.type ≠ .mileage := by rw [ht]; exact fun hc => ScheduleType.noConfusion hc
  have hmil : checkMileage f = .ok (buildPayload f) := by
    unfold checkMileage
    rw [if_neg hne]
  unfold checkCharge
  rw [if_pos ht]
  constructor
  · intro hp
    rw [hp]
  · intro n hp
    rw [hp]
    dsimp only
    constructor
    · intro hn
      rw [if_pos hn]
    · intro h0 h100
      rw [if_neg (by omega), hmil]

/-- Outcome of the range-check stage for a mileage submission, by parse
result. -/
theorem checkCharge_mileage (f : FormData) (ht : f.type = .mileage) :
    (jsParseInt f.desiredMileage = none →
      checkCharge f = .error (.outOfRange .desiredMileage)) ∧
    (∀ n, jsParseInt f.desiredMileage = some n →
      ((n < 0 ∨ 250 < n) →
        checkCharge f = .error (.outOfRange .desiredMileage)) ∧
      (0 ≤ n → n ≤ 250 → checkCharge f = .ok (buildPayload f))) := by
  have hne : f.type ≠ .charge := by rw [ht]; exact fun hc => ScheduleType.noConfusion hc
  have hsub : checkCharge f = checkMileage f := by
    unfold checkCharge
    rw [if_neg hne]
  rw [hsub]
  unfold checkMileage
  rw [if_pos ht]
  constructor
  · intro hp
    rw [hp]
  · intro n hp
    rw [hp]
    dsimp only
    constructor
    · intro hn
      rw [if_pos hn]
    · intro h0 h250
      rw [if_neg (by omega)]

/-- C6: the guard clauses fire in source order — an empty trimmed name wins
over everything, then empty days, then the type-specific time fields; only
then does control reach the numeric range checks. -/
theorem handleSubmit_first_failure (f : FormData) :
    (jsTrim f.name = "" → handleSubmit f = .error (.missingField .name)) ∧
    (jsTrim f.name ≠ "" → f.days.length = 0 →
      handleSubmit f = .error (.missingField .days)) ∧
    (jsTrim f.name ≠ "" → f.days.length ≠ 0 → f.type = .time →
      (f.startTime = "" ∨ f.endTime = "") →
      handleSubmit f = .error (.missingField .startEndTime)) ∧
    (jsTrim f.name ≠ "" → f.days.length ≠ 0 → f.type ≠ .time →
      f.readyByTime = "" → handleSubmit f = .error (.missingField .readyByTime)) ∧
    (jsTrim f.name ≠ "" → f.days.length ≠ 0 → f.type = .time →
      ¬ (f.startTime = "" ∨ f.endTime = "") → handleSubmit f = checkCharge f) ∧
    (jsTrim f.name ≠ "" → f.days.length ≠ 0 → f.type ≠ .time →
      f.readyByTime ≠ "" → handleSubmit f = checkCharge f) := by
  refine ⟨?_, ?_, ?_, ?_, ?_, ?_⟩ <;> { intros; simp [handleSubmit, *] }

/-- Witness for C6: a form failing both the name and the days check reports
the name failure (the first check in source order). -/
theorem handleSubmit_first_failure_witness :
    handleSubmit { name := "   ", type := .time, days := [], startTime := "",
                   endTime := "", readyByTime := "", desiredChargeLevel := "",
                   desiredMileage := "" } = .error (.missingField .name) :=
  (handleSubmit_first_failure _).1 (by decide)

/-- C4: with the earlier guards passing, a charge submission fails with
`OutOfRange(desiredChargeLevel)` exactly when the field does not parse to an
integer in `[0, 100]`, and a mileage submission fails with
`OutOfRange(desiredMileage)` exactly when the field does not parse to an
integer in `[0, 250]` (boundaries accepted). -/
theorem handleSubmit_range_checks (f : FormData)
    (h1 : jsTrim f.name ≠ "") (h2 : f.days.length ≠ 0) (h3 : f.readyByTime ≠ "") :
    (f.type = .charge →
      (handleSubmit f = .error (.outOfRange .desiredChargeLevel) ↔
        ¬ ∃ n, jsParseInt f.desiredChargeLevel = some n ∧ 0 ≤ n ∧ n ≤ 100)) ∧
    (f.type = .mileage →
      (handleSubmit f = .error (.outOfRange .desiredMileage) ↔
        ¬ ∃ n, jsParseInt f.desiredMileage = some n ∧ 0 ≤ n ∧ n ≤ 250)) := by
  constructor
  · intro ht
    have hne : f.type ≠ .time := by rw [ht]; exact fun hc => ScheduleType.noConfusion hc
    rw [handleSubmit_to_checkCharge f h1 h2 h3 hne]
    obtain ⟨hnone, hsome⟩ := checkCharge_charge f ht
    constructor
    · rintro herr ⟨n, hp, hn0, hn100⟩
      rw [(hsome n hp).2 hn0 hn100] at herr
      exact Except.noConfusion herr
    · intro hno
      rcases hp : jsParseInt f.desiredChargeLevel with _ | n
      · exact hnone hp
      · refine (hsome n hp).1 ?_
        by_contra hc
        push_neg at hc
        exact hno ⟨n, hp, by omega, by omega⟩
  · intro ht
    have hne : f.type ≠ .time := by rw [ht]; exact fun hc => ScheduleType.noConfusion hc
    rw [handleSubmit_to_checkCharge f h1 h2 h3 hne]
    obtain ⟨hnone, hsome⟩ := checkCharge_mileage f ht
    constructor
    · rintro herr ⟨n, hp, hn0, hn250⟩
      rw [(hsome n hp).2 hn0 hn250] at herr
      exact Except.noConfusion herr
    · intro hno
      rcases hp : jsParseInt f.desiredMileage with _ | n
      · exact hnone hp
      · refine (hsome n hp).1 ?_
        by_contra hc
        push_neg at hc
        exact hno ⟨n, hp, by omega, by omega⟩

/-- Witness for C4 at the boundary inputs 101, 100, 251 and 250. -/
theorem handleSubmit_range_checks_witness :
    handleSubmit (chargeForm "101") = .error (.outOfRange .desiredChargeLevel) ∧
    handleSubmit (chargeForm "100") ≠ .error (.outOfRange .desiredChargeLevel) ∧
    handleSubmit (mileageForm "251") = .error (.outOfRange .desiredMileage) ∧
    handleSubmit (mileageForm "250") ≠ .error (.outOfRange .desiredMileage) := by
  refine ⟨?_, ?_, ?_, ?_⟩
  · apply ((handleSubmit_range_checks (chargeForm "101") (by decide) (by decide)
      (by decide)).1 rfl).mpr
    rintro ⟨n, hp, h0, h100⟩
    rw [show jsParseInt (chargeForm "101").desiredChargeLevel = some 101 from by decide] at hp
    injection hp with hn
    omega
  · intro herr
    exact ((handleSubmit_range_checks (chargeForm "100") (by decide) (by decide)
      (by decide)).1 rfl).mp herr ⟨100, by decide, by decide, by decide⟩
  · apply ((handleSubmit_range_checks (mileageForm "251") (by decide) (by decide)
      (by decide)).2 rfl).mpr
    rintro ⟨n, hp, h0, h250⟩
    rw [show jsParseInt (mileageForm "251").desiredMileage = some 251 from by decide] at hp
    injection hp with hn
    omega
  · intro herr
    exact ((handleSubmit_range_checks (mileageForm "250") (by decide) (by decide)
      (by decide)).2 rfl).mp herr ⟨250, by decide, by decide, by decide⟩

/-- C5 counterexample: the fractional input `2.5` for a charge submission is
not rejected — `parseInt` truncates it to `2`, which passes the range check,
and the submission succeeds carrying charge level 2. -/
theorem fractional_input_accepted :
    handleSubmit (chargeForm "2.5") =
      .ok { name := "Night", type := .charge, days := "[\"Monday\",\"Wednesday\"]",
            startTime := none, endTime := none, readyByTime := some "07:00",
            desiredChargeLevel := some 2, desiredMileage := none,
            isActive := true } ∧
    handleSubmit (chargeForm "2.5") ≠ .error (.outOfRange .desiredChargeLevel) := by
  refine ⟨by decide, by decide⟩

/-- C5 amended: integer parsing truncates the input to its leading integer
prefix; with earlier guards passing, a charge or mileage submission is
rejected with `OutOfRange` exactly when that prefix is missing (non-numeric
input) or out of range, and otherwise accepted with the truncated value —
so in-range fractional inputs are accepted, not rejected. -/
theorem handleSubmit_parse_truncation (f : FormData)
    (h1 : jsTrim f.name ≠ "") (h2 : f.days.length ≠ 0) (h3 : f.readyByTime ≠ "") :
    (f.type = .charge →
      (jsParseInt f.desiredChargeLevel = none →
        handleSubmit f = .error (.outOfRange .desiredChargeLevel)) ∧
      (∀ n, jsParseInt f.desiredChargeLevel = some n → 0 ≤ n → n ≤ 100 →
        handleSubmit f = .ok (buildPayload f) ∧
        (buildPayload f).desiredChargeLevel = some n) ∧
      (∀ n, jsParseInt f.desiredChargeLevel = some n → (n < 0 ∨ 100 < n) →
        handleSubmit f = .error (.outOfRange .desiredChargeLevel))) ∧
    (f.type = .mileage →
      (jsParseInt f.desiredMileage = none →
        handleSubmit f = .error (.outOfRange .desiredMileage)) ∧
      (∀ n, jsParseInt f.desiredMileage = some n → 0 ≤ n → n ≤ 250 →
        handleSubmit f = .ok (buildPayload f) ∧
        (buildPayload f).desiredMileage = some n) ∧
      (∀ n, jsParseInt f.desiredMileage = some n → (n < 0 ∨ 250 < n) →
        handleSubmit f = .error (.outOfRange .desiredMileage))) := by
  constructor
  · intro ht
    have hne : f.type ≠ .time := by rw [ht]; exact fun hc => ScheduleType.noConfusion hc
    have hsub := handleSubmit_to_checkCharge f h1 h2 h3 hne
    obtain ⟨hnone, hsome⟩ := checkCharge_charge f ht
    refine ⟨fun hp => by rw [hsub]; exact hnone hp, ?_, ?_⟩
    · intro n hp hn0 hn100
      refine ⟨by rw [hsub]; exact (hsome n hp).2 hn0 hn100, ?_⟩
      simp [buildPayload, ht, hp]
    · intro n hp hn
      rw [hsub]
      exact (hsome n hp).1 hn
  · intro ht
    have hne : f.type ≠ .time := by rw [ht]; exact fun hc => ScheduleType.noConfusion hc
    have hsub := handleSubmit_to_checkCharge f h1 h2 h3 hne
    obtain ⟨hnone, hsome⟩ := checkCharge_mileage f ht
    refine ⟨fun hp => by rw [hsub]; exact hnone hp, ?_, ?_⟩
    · intro n hp hn0 hn250
      refine ⟨by rw [hsub]; exact (hsome n hp).2 hn0 hn250, ?_⟩
      simp [buildPayload, ht, hp]
    · intro n hp hn
      rw [hsub]
      exact (hsome n hp).1 hn

/-- Witness for the amended C5: the fractional input `2.6` is accepted with
the truncated value 2, and the digit-free input `abc` is rejected. -/
theorem handleSubmit_parse_truncation_witness :
    (handleSubmit (chargeForm "2.6") = .ok (buildPayload (chargeForm "2.6")) ∧
      (buildPayload (chargeForm "2.6")).desiredChargeLevel = some 2) ∧
    handleSubmit (chargeForm "abc") = .error (.outOfRange .desiredChargeLevel) :=
  ⟨((handleSubmit_parse_truncation (chargeForm "2.6") (by decide) (by decide)
      (by decide)).1 rfl).2.1 2 (by decide) (by decide) (by decide),
   ((handleSubmit_parse_truncation (chargeForm "abc") (by decide) (by decide)
      (by decide)).1 rfl).1 (by decide)⟩

/-- The payload the form submits for a zero-charge-level submission. -/
def zeroChargePayload : FormPayload :=
  { name := "Night"
    type := .charge
    days := "[\"Monday\",\"Wednesday\"]"
    startTime := none
    endTime := none
    readyByTime := some "07:00"
    desiredChargeLevel := some 0
    desiredMileage := none
    isActive := true }

/-- The row `createSchedule` actually inserts for that payload: the `|| null`
coercion turns the falsy charge level 0 into NULL. -/
def zeroChargeRow : ScheduleRow :=
  { id := 1
    userId := 1
    type := .charge
    name := "Night"
    days := "[\"Monday\",\"Wednesday\"]"
    startTime := none
    endTime := none
    readyByTime := some "07:00"
    desiredChargeLevel := none
    desiredMileage := none
    isActive := true
    createdAt := 0 }

/-- The store after inserting the zero-charge submission into the empty
store. -/
def dbAfterZero : DBState :=
  { users := [], schedules := [zeroChargeRow], nextUserId := 1, nextScheduleId := 2, clock := 1 }

/-- C1 at its failing input: validation accepts charge level 0 and submits
`desiredChargeLevel = 0`, but `createSchedule` persists NULL for it (the
`|| null` coercion treats 0 as absent), so the record read back by
`getSchedulesByUserId` carries `none` instead of the submitted 0. -/
theorem createSchedule_drops_zero_charge :
    handleSubmit (chargeForm "0") = .ok zeroChargePayload ∧
    zeroChargePayload.desiredChargeLevel = some 0 ∧
    createSchedule emptyDB (toCreateData zeroChargePayload 1) =
      .ok (zeroChargeRow, dbAfterZero) ∧
    getSchedulesByUserId dbAfterZero 1 = [zeroChargeRow] ∧
    zeroChargeRow.desiredChargeLevel = none := by
  refine ⟨by decide, by decide, by decide, by decide, by decide⟩

end AndersenEV
